import Mathlib

/-!
Verification development for the `clockhand` watch-and-notify tool
(`src/main.rs`). The watch pipeline (debounce gate, project resolution,
timer-status classification, notification dispatch), the project-root
derivation of `read_project_config`, and the report duration formatter
`decimal_hours_to_string` are embedded shallowly below.

Modelling conventions:
- Absolute filesystem paths are modelled as their lists of components
  (`PathBuf`/`Path` compare component-wise: `Path::starts_with`,
  `parent`, `file_name` all respect segment boundaries).
- `Instant` timestamps are integers (seconds); only differences and
  comparisons of instants occur in the source, so any ordered abelian
  group is faithful, and the claims under study involve whole seconds.
- The remote Harvest API is an oracle: each file-system event carries the
  responses the two remote calls would produce during its processing.
- Rust panics (`.unwrap()` on `None`/`Err`) and errors propagated by `?`
  out of `main` are the `panicked` and `err` outcomes of `RunResult`.
-/

namespace Clockhand

/-- A filesystem path as its list of components (e.g.
`/p/alpha/src/main.ext` is `["p", "alpha", "src", "main.ext"]`). -/
abbrev FsPath := List String

/-- `struct Project` from `src/main.rs`: remote project id, watch root,
display name. -/
structure Project where
  harvest_project_id : Int
  root : FsPath
  name : String
deriving DecidableEq

/-- `Project::contains_file`: `path.starts_with(&self.root)`.
`Path::starts_with` succeeds only on whole path components, which is
exactly list-prefix on the component lists. -/
def Project.contains_file (p : Project) (path : FsPath) : Bool :=
  p.root.isPrefixOf path

/-- The resolution step of `notify_project_timer_status`:
`projects.iter().find(|p| p.contains_file(path.clone()))`. -/
def resolve_project (projects : List Project) (path : FsPath) : Option Project :=
  projects.find? (fun p => p.contains_file path)

/-- The `project` field of a Harvest time entry (its `id` is `Option`
in the generated API types). -/
structure EntryProject where
  id : Option Int
deriving DecidableEq

/-- A Harvest time entry, restricted to the field the watch path reads. -/
structure TimeEntry where
  project : Option EntryProject
deriving DecidableEq

/-- `enum TimerStatus` from `src/main.rs`. -/
inductive TimerStatus where
  | TimerRunning
  | TimerNotRunning
  | TimerForDifferentProject
deriving DecidableEq

/-- Outcome of running a fallible, possibly panicking piece of the
program: normal result, an `anyhow` error propagated by `?` (which in
`main`'s watch loop exits the process), or a panic from `.unwrap()`. -/
inductive RunResult (α : Type) where
  | ok (a : α)
  | err
  | panicked
deriving DecidableEq

/-- `is_active_timer_for_project`, as a function of the two remote
responses. The user-identification call is `.unwrap()`ed (panic on
failure); the time-entries call uses `?` (error propagates); a returned
timer has `timer.project.as_ref().unwrap().id.unwrap()` compared with
`project.harvest_project_id`. -/
def is_active_timer_for_project (meResp : Except Unit Unit)
    (entriesResp : Except Unit (List TimeEntry)) (project : Project) :
    RunResult TimerStatus :=
  match meResp with
  | .error _ => .panicked
  | .ok _ =>
    match entriesResp with
    | .error _ => .err
    | .ok entries =>
      match entries.head? with
      | some timer =>
        match timer.project with
        | none => .panicked
        | some tp =>
          match tp.id with
          | none => .panicked
          | some tid =>
            if tid = project.harvest_project_id then .ok .TimerRunning
            else .ok .TimerForDifferentProject
      | none => .ok .TimerNotRunning

/-- A rendered desktop notification (summary, body, sound). -/
structure NotificationMsg where
  summary : String
  body : String
  sound_name : String
deriving DecidableEq

/-- The dispatch `match` at the end of `notify_project_timer_status`:
no-op for `TimerRunning`, otherwise exactly one notification whose
body is `format!("Start a timer for {}", project.name)`. -/
def dispatch (status : TimerStatus) (project : Project) : List NotificationMsg :=
  match status with
  | .TimerRunning => []
  | .TimerNotRunning =>
    [⟨"Timer not running", "Start a timer for " ++ project.name, "Sosumi"⟩]
  | .TimerForDifferentProject =>
    [⟨"Timer running for other project", "Start a timer for " ++ project.name, "Sosumi"⟩]

/-- `notify_project_timer_status`: resolution failure is
`.ok_or_else(|| anyhow!("path isn't in any project")).unwrap()` — a
panic, not a silent drop; then classification and dispatch. Returns the
notifications emitted. -/
def notify_project_timer_status (path : FsPath) (projects : List Project)
    (meResp : Except Unit Unit) (entriesResp : Except Unit (List TimeEntry)) :
    RunResult (List NotificationMsg) :=
  match resolve_project projects path with
  | none => .panicked
  | some project =>
    match is_active_timer_for_project meResp entriesResp project with
    | .panicked => .panicked
    | .err => .err
    | .ok status => .ok (dispatch status project)

/-- A file-system event as consumed by the watch loop: its arrival
instant, its `paths`, and the remote responses the two Harvest calls
would produce if a check runs while processing it. -/
structure FsEvent where
  now : Int
  paths : List FsPath
  meResp : Except Unit Unit
  entriesResp : Except Unit (List TimeEntry)

/-- The debounce condition of the watch loop:
`last_request_time.elapsed() > Duration::from_secs(interval)`,
i.e. `now - last > interval`, strictly. -/
def debounce_accept (interval last now : Int) : Bool :=
  decide (now - last > interval)

/-- `Instant::now().checked_sub(Duration::from_secs(interval))` at
process start: the initial `last_request_time`. -/
def initial_last_request_time (start interval : Int) : Int :=
  start - interval

/-- One iteration of the watch loop body on an `Ok(Ok(event))`: test the
debounce condition; if it passes, set `last_request_time = now`, take
`event.paths.first().unwrap()` (panic when `paths` is empty) and run
`notify_project_timer_status` (whose error the loop propagates with
`?`). Returns (accepted?, new `last_request_time`, notifications). -/
def watchIter (interval : Int) (projects : List Project) (last : Int)
    (e : FsEvent) : RunResult (Bool × Int × List NotificationMsg) :=
  if debounce_accept interval last e.now then
    match e.paths.head? with
    | none => .panicked
    | some path =>
      match notify_project_timer_status path projects e.meResp e.entriesResp with
      | .panicked => .panicked
      | .err => .err
      | .ok notifs => .ok (true, e.now, notifs)
  else
    .ok (false, last, [])

/-- The watch loop run over a finite list of events. A panic or a
propagated error terminates the run (the process exits); otherwise the
run returns the final `last_request_time` and a trace of one
`(accepted?, arrival instant, notifications)` entry per event. In an
`ok` run, each accepted entry performed exactly one remote status
check. -/
def runWatch (interval : Int) (projects : List Project) (last : Int) :
    List FsEvent → RunResult (Int × List (Bool × Int × List NotificationMsg))
  | [] => .ok (last, [])
  | e :: rest =>
    match watchIter interval projects last e with
    | .panicked => .panicked
    | .err => .err
    | .ok (acc, last2, notifs) =>
      match runWatch interval projects last2 rest with
      | .panicked => .panicked
      | .err => .err
      | .ok (lastF, trace) => .ok (lastF, (acc, e.now, notifs) :: trace)

/-- Number of status checks performed along an `ok` trace: one per
accepted event. -/
def numChecks (trace : List (Bool × Int × List NotificationMsg)) : Nat :=
  (trace.filter (fun t => t.1)).length

/-- `path.parent()` of an absolute path: `None` at the root `/`. -/
def path_parent (p : FsPath) : Option FsPath :=
  if p.isEmpty then none else some p.dropLast

/-- `path.file_name()` of an absolute path: its last component, `None`
at the root `/`. -/
def path_file_name (p : FsPath) : Option String :=
  p.getLast?

/-- The project-root derivation inside `read_project_config` (the file
reading and JSON parsing around it are I/O): `config_dir` is the
descriptor's parent directory; if its `file_name` is literally
`".config"` the root is `config_dir`'s parent, otherwise `config_dir`
itself. Each `ok_or_else(...)?` failure is an error. -/
def read_project_config_root (path : FsPath) : Except String FsPath :=
  match path_parent path with
  | none => .error "failed to get parent directory of path"
  | some config_dir =>
    match path_file_name config_dir with
    | none => .error "failed to get file name of config_dir"
    | some fname =>
      if fname = ".config" then
        match path_parent config_dir with
        | none => .error "failed to get parent directory of config_dir"
        | some parent2 => .ok parent2
      else
        .ok config_dir

/-- `format!("{:02}", n)`: zero-pad to width 2 (sign included in the
width, as in Rust). -/
def pad2 (n : Int) : String :=
  let s := toString n
  if s.length < 2 then "0" ++ s else s

/-- `f32::round`: nearest integer, ties away from zero. -/
def rust_round (q : ℚ) : Int :=
  if 0 ≤ q then (q + 1/2).floor else -(-q + 1/2).floor

/-- `decimal_hours_to_string` over exact rationals. The claims under
study evaluate it at `1.5` and `0.25`, whose `f32` runs
(`floor`, subtraction, `* 60.0`, `round`) stay on exactly representable
dyadic values, so the rational model agrees with the `f32` source
there. -/
def decimal_hours_to_string (decimal_hours : ℚ) : String :=
  let hours : Int := decimal_hours.floor
  let minutes : Int := rust_round ((decimal_hours - (hours : ℚ)) * 60)
  if hours = 0 then "    " ++ pad2 minutes ++ "m"
  else pad2 hours ++ "h " ++ pad2 minutes ++ "m"

/-- Concrete project used by counterexamples and witnesses. -/
def projAlpha : Project :=
  ⟨42, ["p", "alpha"], "Alpha"⟩

/-- An accepted event whose path lies outside every registered root. -/
def evOutside : FsEvent :=
  ⟨1, [["q", "elsewhere", "file.txt"]], Except.ok (), Except.ok []⟩

/-- A well-behaved event inside `projAlpha` with no running timer. -/
def evInside (t : Int) : FsEvent :=
  ⟨t, [["p", "alpha", "src", "main.ext"]], Except.ok (), Except.ok []⟩

/-- An event inside `projAlpha` whose time-entries query fails. -/
def evQueryFail : FsEvent :=
  ⟨1, [["p", "alpha", "src", "main.ext"]], Except.ok (), Except.error ()⟩

/-- The "Timer not running" notification for `projAlpha`. -/
def notifAlphaNotRunning : NotificationMsg :=
  ⟨"Timer not running", "Start a timer for Alpha", "Sosumi"⟩

/-- Splitting the count of accepted entries at a cons cell. -/
theorem numChecks_cons (b : Bool) (t : Int) (ns : List NotificationMsg)
    (tr : List (Bool × Int × List NotificationMsg)) :
    numChecks ((b, t, ns) :: tr) = (if b then 1 else 0) + numChecks tr := by
  cases b
  · simp [numChecks, List.filter_cons]
  · simp [numChecks, List.filter_cons]
    omega

/-- First-match characterization of `List.find?`. -/
theorem find?_first_match {α : Type} (p : α → Bool) (l : List α) (a : α)
    (h : l.find? p = some a) :
    ∃ pre post, l = pre ++ a :: post ∧ p a = true ∧ ∀ b ∈ pre, p b = false := by
  induction l with
  | nil => simp at h
  | cons x xs ih =>
    cases hx : p x with
    | true =>
      rw [List.find?_cons_of_pos _ hx] at h
      cases h
      exact ⟨[], xs, rfl, hx, by simp⟩
    | false =>
      rw [List.find?_cons_of_neg _ (by simp [hx])] at h
      obtain ⟨pre, post, hl, hpa, hpre⟩ := ih h
      refine ⟨x :: pre, post, by rw [hl]; rfl, hpa, ?_⟩
      intro b hb
      rcases List.mem_cons.mp hb with hb | hb
      · rw [hb]; exact hx
      · exact hpre b hb

/-- Once `last_request_time` is at least `t0` and every remaining event
arrives no later than `t0 + interval`, the debounce gate rejects every
remaining event, so an `ok` run performs no further status checks. -/
theorem runWatch_checks_zero_of_window (interval t0 : Int) (projects : List Project)
    (events : List FsEvent) (hall : ∀ e ∈ events, e.now ≤ t0 + interval) :
    ∀ last, t0 ≤ last → ∀ lastF trace,
      runWatch interval projects last events = RunResult.ok (lastF, trace) →
      numChecks trace = 0 := by
  induction events with
  | nil =>
    intro last _ lastF trace h
    simp only [runWatch, RunResult.ok.injEq, Prod.mk.injEq] at h
    rw [← h.2]
    rfl
  | cons e rest ih =>
    intro last hlast lastF trace h
    have hnow : e.now ≤ t0 + interval := hall e (List.mem_cons_self e rest)
    have hrest : ∀ x ∈ rest, x.now ≤ t0 + interval := by
      intro x hx
      exact hall x (List.mem_cons_of_mem e hx)
    have hnot : debounce_accept interval last e.now = false := by
      simp only [debounce_accept, decide_eq_false_iff_not, not_lt]
      omega
    simp only [runWatch, watchIter, hnot, Bool.false_eq_true, if_false] at h
    cases hr : runWatch interval projects last rest with
    | panicked => rw [hr] at h; exact absurd h (by simp)
    | err => rw [hr] at h; exact absurd h (by simp)
    | ok res =>
      obtain ⟨lf, tr⟩ := res
      rw [hr] at h
      simp only [RunResult.ok.injEq, Prod.mk.injEq] at h
      rw [← h.2, numChecks_cons]
      simp only [if_neg (by simp : ¬(false = true))]
      rw [ih hrest last hlast lf tr hr]

/-- C1 counterexample data: an accepted event outside every root panics
the loop, so a following in-project event is never consumed. -/
theorem C1_counterexample :
    watchIter 60 [projAlpha] (initial_last_request_time 0 60) evOutside =
      RunResult.panicked ∧
    runWatch 60 [projAlpha] (initial_last_request_time 0 60)
      [evOutside, evInside 200] = RunResult.panicked := by
  constructor <;> decide

/-- C1 (amended): when the debounce gate accepts an event whose first
path resolves to no registered project, no status check runs and no
notification is emitted, but the event is not dropped silently: the
`.unwrap()` of the failed resolution panics, terminating the loop. -/
theorem C1_amended_unresolved_panics (interval last : Int) (projects : List Project)
    (e : FsEvent) (path : FsPath)
    (hacc : debounce_accept interval last e.now = true)
    (hpath : e.paths.head? = some path)
    (hnone : resolve_project projects path = none) :
    watchIter interval projects last e = RunResult.panicked := by
  simp [watchIter, hacc, hpath, notify_project_timer_status, hnone]

/-- Witness for the amended C1 at concrete inputs. -/
theorem C1_amended_witness :
    watchIter 60 [projAlpha] (initial_last_request_time 0 60) evOutside =
      RunResult.panicked :=
  C1_amended_unresolved_panics 60 (initial_last_request_time 0 60) [projAlpha]
    evOutside ["q", "elsewhere", "file.txt"] (by decide) rfl (by decide)

/-- C2 counterexample: a failed time-entries query during an accepted
check makes the whole run an error (the `?` in the loop body exits
`main`), so the following event is never consumed. -/
theorem C2_counterexample :
    runWatch 60 [projAlpha] (initial_last_request_time 0 60)
      [evQueryFail, evInside 200] = RunResult.err := by
  decide

/-- C2 (amended): a remote failure of the time-entries query during a
check is not survived: the error propagates out of the watch loop and
terminates the run, leaving all subsequent events unconsumed (a failed
user-identification call even panics). -/
theorem C2_amended_query_failure_terminates (interval last : Int)
    (projects : List Project) (e : FsEvent) (rest : List FsEvent)
    (path : FsPath) (project : Project)
    (hacc : debounce_accept interval last e.now = true)
    (hpath : e.paths.head? = some path)
    (hres : resolve_project projects path = some project)
    (hme : e.meResp = Except.ok ())
    (hfail : e.entriesResp = Except.error ()) :
    runWatch interval projects last (e :: rest) = RunResult.err := by
  simp [runWatch, watchIter, hacc, hpath, notify_project_timer_status, hres,
    is_active_timer_for_project, hme, hfail]

/-- Witness for the amended C2 at concrete inputs. -/
theorem C2_amended_witness :
    runWatch 60 [projAlpha] (initial_last_request_time 0 60) [evQueryFail] =
      RunResult.err :=
  C2_amended_query_failure_terminates 60 (initial_last_request_time 0 60)
    [projAlpha] evQueryFail [] ["p", "alpha", "src", "main.ext"] projAlpha
    (by decide) rfl (by decide) rfl rfl

/-- C3 counterexample: events at instants 1, 60, 119 with interval 60 —
consecutive gaps are 59 < 60, yet the run performs two status checks
(the cooldown is a rolling throttle, not a burst coalescer). -/
theorem C3_counterexample :
    ((60 : Int) - 1 < 60 ∧ (119 : Int) - 60 < 60) ∧
    runWatch 60 [projAlpha] (initial_last_request_time 0 60)
      [evInside 1, evInside 60, evInside 119] =
      RunResult.ok (119,
        [(true, 1, [notifAlphaNotRunning]),
         (false, 60, []),
         (true, 119, [notifAlphaNotRunning])]) ∧
    numChecks
      [(true, 1, [notifAlphaNotRunning]),
       (false, 60, []),
       (true, 119, [notifAlphaNotRunning])] = 2 := by
  refine ⟨by decide, by decide, by decide⟩

/-- C3 (amended): for every sequence of file-change events arriving
within a single window of length `interval` (all instants in
`[t0, t0 + interval]` for some reference instant `t0`), an `ok` run of
the watch loop performs at most one status check. -/
theorem C3_amended_one_check_per_window (interval t0 : Int)
    (projects : List Project) (events : List FsEvent)
    (hall : ∀ e ∈ events, t0 ≤ e.now ∧ e.now ≤ t0 + interval) :
    ∀ last lastF trace,
      runWatch interval projects last events = RunResult.ok (lastF, trace) →
      numChecks trace ≤ 1 := by
  induction events with
  | nil =>
    intro last lastF trace h
    simp only [runWatch, RunResult.ok.injEq, Prod.mk.injEq] at h
    rw [← h.2]
    exact Nat.zero_le 1
  | cons e rest ih =>
    intro last lastF trace h
    have hrest : ∀ x ∈ rest, t0 ≤ x.now ∧ x.now ≤ t0 + interval := by
      intro x hx
      exact hall x (List.mem_cons_of_mem e hx)
    cases hacc : debounce_accept interval last e.now with
    | false =>
      simp only [runWatch, watchIter, hacc, Bool.false_eq_true, if_false] at h
      cases hr : runWatch interval projects last rest with
      | panicked => rw [hr] at h; exact absurd h (by simp)
      | err => rw [hr] at h; exact absurd h (by simp)
      | ok res =>
        obtain ⟨lf, tr⟩ := res
        rw [hr] at h
        simp only [RunResult.ok.injEq, Prod.mk.injEq] at h
        rw [← h.2, numChecks_cons]
        simp only [if_neg (by simp : ¬(false = true)), Nat.zero_add]
        exact ih hrest last lf tr hr
    | true =>
      simp only [runWatch, watchIter, hacc, if_true] at h
      cases hp : e.paths.head? with
      | none => simp [hp] at h
      | some path =>
        cases hn : notify_project_timer_status path projects e.meResp e.entriesResp with
        | panicked => simp [hp, hn] at h
        | err => simp [hp, hn] at h
        | ok notifs =>
          simp only [hp, hn] at h
          cases hr : runWatch interval projects e.now rest with
          | panicked => simp [hr] at h
          | err => simp [hr] at h
          | ok res =>
            obtain ⟨lf, tr⟩ := res
            simp only [hr, RunResult.ok.injEq, Prod.mk.injEq] at h
            rw [← h.2, numChecks_cons]
            have htr : numChecks tr = 0 :=
              runWatch_checks_zero_of_window interval t0 projects rest
                (fun x hx => (hrest x hx).2) e.now (hall e (List.mem_cons_self e rest)).1
                lf tr hr
            rw [htr]
            simp

/-- Witness for the amended C3 at concrete inputs. -/
theorem C3_amended_witness :
    numChecks [(true, 1, [notifAlphaNotRunning]), (false, 30, [])] ≤ 1 :=
  C3_amended_one_check_per_window 60 0 [projAlpha] [evInside 1, evInside 30]
    (by decide) (initial_last_request_time 0 60) 1
    [(true, 1, [notifAlphaNotRunning]), (false, 30, [])] (by decide)

/-- C4: the debounce decision accepts exactly when `now - last_request_time`
strictly exceeds `interval`; an accepted iteration that completes sets
`last_request_time` to the event's instant, and a rejected iteration
drops the event, leaving the state unchanged with no notification. -/
theorem C4_debounce_accept_iff (interval last : Int) (projects : List Project)
    (e : FsEvent) :
    (debounce_accept interval last e.now = true ↔ e.now - last > interval) ∧
    (debounce_accept interval last e.now = true →
      watchIter interval projects last e = RunResult.panicked ∨
      watchIter interval projects last e = RunResult.err ∨
      ∃ notifs, watchIter interval projects last e =
        RunResult.ok (true, e.now, notifs)) ∧
    (debounce_accept interval last e.now = false →
      watchIter interval projects last e = RunResult.ok (false, last, [])) := by
  refine ⟨by simp [debounce_accept], ?_, ?_⟩
  · intro hacc
    cases hp : e.paths.head? with
    | none => exact Or.inl (by simp [watchIter, hacc, hp])
    | some path =>
      cases hn : notify_project_timer_status path projects e.meResp e.entriesResp with
      | panicked => exact Or.inl (by simp [watchIter, hacc, hp, hn])
      | err => exact Or.inr (Or.inl (by simp [watchIter, hacc, hp, hn]))
      | ok notifs => exact Or.inr (Or.inr ⟨notifs, by simp [watchIter, hacc, hp, hn]⟩)
  · intro hacc
    simp [watchIter, hacc]

/-- Witness for C4 at concrete inputs (a rejected event). -/
theorem C4_witness :
    watchIter 60 [projAlpha] 0 ⟨10, [], Except.ok (), Except.ok []⟩ =
      RunResult.ok (false, 0, []) :=
  (C4_debounce_accept_iff 60 0 [projAlpha] ⟨10, [], Except.ok (), Except.ok []⟩).2.2
    (by decide)

/-- C5: resolution returns the first registered project whose root
contains the path with component-boundary containment (`/a/b` owns
`/a/b/file.txt` but not `/a/bc/file.txt`), and `none` exactly when no
root contains the path. -/
theorem C5_resolve_first_containing (projects : List Project) (path : FsPath) :
    (∀ p, resolve_project projects path = some p →
      ∃ pre post, projects = pre ++ p :: post ∧ p.contains_file path = true ∧
        ∀ q ∈ pre, q.contains_file path = false) ∧
    (resolve_project projects path = none ↔
      ∀ q ∈ projects, q.contains_file path = false) ∧
    Project.contains_file ⟨0, ["a", "b"], "ab"⟩ ["a", "b", "file.txt"] = true ∧
    Project.contains_file ⟨0, ["a", "b"], "ab"⟩ ["a", "bc", "file.txt"] = false := by
  refine ⟨?_, ?_, by decide, by decide⟩
  · intro p hp
    simp only [resolve_project] at hp
    exact find?_first_match (fun q => q.contains_file path) projects p hp
  · rw [resolve_project, List.find?_eq_none]
    constructor
    · intro h q hq
      exact Bool.not_eq_true _ ▸ (by simpa using h q hq)
    · intro h q hq
      simp [h q hq]

/-- Witness for C5 at concrete inputs. -/
theorem C5_witness :
    resolve_project [projAlpha] ["q", "elsewhere", "file.txt"] = none :=
  ((C5_resolve_first_containing [projAlpha] ["q", "elsewhere", "file.txt"]).2.1).mpr
    (by decide)

/-- C6: with both remote calls succeeding, an empty running-timer list
classifies as `TimerNotRunning`; a returned timer whose project id
equals the evaluated project's id classifies as `TimerRunning`, and a
differing id as `TimerForDifferentProject`. -/
theorem C6_classification (project : Project) (entries : List TimeEntry) :
    (entries.head? = none →
      is_active_timer_for_project (Except.ok ()) (Except.ok entries) project =
        RunResult.ok TimerStatus.TimerNotRunning) ∧
    (∀ timer tid, entries.head? = some timer →
      timer.project = some ⟨some tid⟩ →
      (tid = project.harvest_project_id →
        is_active_timer_for_project (Except.ok ()) (Except.ok entries) project =
          RunResult.ok TimerStatus.TimerRunning) ∧
      (tid ≠ project.harvest_project_id →
        is_active_timer_for_project (Except.ok ()) (Except.ok entries) project =
          RunResult.ok TimerStatus.TimerForDifferentProject)) := by
  constructor
  · intro h
    simp [is_active_timer_for_project, h]
  · intro timer tid hhead hproj
    constructor
    · intro heq
      simp [is_active_timer_for_project, hhead, hproj, heq]
    · intro hne
      simp [is_active_timer_for_project, hhead, hproj, hne]

/-- Witness for C6 at concrete inputs (matching ids). -/
theorem C6_witness :
    is_active_timer_for_project (Except.ok ())
      (Except.ok [⟨some ⟨some 42⟩⟩]) projAlpha =
      RunResult.ok TimerStatus.TimerRunning :=
  ((C6_classification projAlpha [⟨some ⟨some 42⟩⟩]).2 ⟨some ⟨some 42⟩⟩ 42 rfl rfl).1 rfl

/-- C7: dispatch is a no-op for `TimerRunning` and emits exactly one
notification for each of the other two statuses, with the stated
summaries and a body naming the evaluated project. -/
theorem C7_dispatch (project : Project) :
    dispatch TimerStatus.TimerRunning project = [] ∧
    dispatch TimerStatus.TimerNotRunning project =
      [⟨"Timer not running", "Start a timer for " ++ project.name, "Sosumi"⟩] ∧
    (dispatch TimerStatus.TimerNotRunning project).length = 1 ∧
    dispatch TimerStatus.TimerForDifferentProject project =
      [⟨"Timer running for other project",
        "Start a timer for " ++ project.name, "Sosumi"⟩] ∧
    (dispatch TimerStatus.TimerForDifferentProject project).length = 1 :=
  ⟨rfl, rfl, rfl, rfl, rfl⟩

/-- C8: the project root is the descriptor's containing directory,
except that a containing directory literally named `.config` is
replaced by its parent; in particular both
`/x/project/.config/clockhand.json` and `/x/project/clockhand.json`
yield root `/x/project`. -/
theorem C8_root_derivation (path config_dir : FsPath) (fname : String)
    (hp : path_parent path = some config_dir)
    (hn : path_file_name config_dir = some fname) :
    ((fname = ".config" → ∀ gp, path_parent config_dir = some gp →
        read_project_config_root path = Except.ok gp) ∧
      (fname ≠ ".config" → read_project_config_root path = Except.ok config_dir)) ∧
    read_project_config_root ["x", "project", ".config", "clockhand.json"] =
      Except.ok ["x", "project"] ∧
    read_project_config_root ["x", "project", "clockhand.json"] =
      Except.ok ["x", "project"] := by
  refine ⟨⟨?_, ?_⟩, rfl, rfl⟩
  · intro hc gp hgp
    simp [read_project_config_root, hp, hn, hc, hgp]
  · intro hc
    simp [read_project_config_root, hp, hn, hc]

/-- Witness for C8 at the `.config` example descriptor path. -/
theorem C8_witness :
    read_project_config_root ["x", "project", ".config", "clockhand.json"] =
      Except.ok ["x", "project"] :=
  ((C8_root_derivation ["x", "project", ".config", "clockhand.json"]
    ["x", "project", ".config"] ".config" rfl rfl).1).1 rfl ["x", "project"] rfl

/-- C9: the report duration formatter renders 1.5 hours as `01h 30m`
and 0.25 hours as `    15m` (the zero-hour case replaces the hour field
with four spaces of padding). -/
theorem C9_report_format :
    decimal_hours_to_string (3/2) = "01h 30m" ∧
    decimal_hours_to_string (1/4) = "    15m" := by
  constructor
  · norm_num [decimal_hours_to_string, rust_round, Rat.floor]
    rfl
  · norm_num [decimal_hours_to_string, rust_round, Rat.floor]
    rfl

/-- C10: an event accepted by the debounce gate whose `paths` list is
empty panics the loop (the `.unwrap()` of `paths.first()`). -/
theorem C10_empty_paths_panics (interval last : Int) (projects : List Project)
    (e : FsEvent)
    (hacc : debounce_accept interval last e.now = true)
    (hempty : e.paths = []) :
    watchIter interval projects last e = RunResult.panicked := by
  simp [watchIter, hacc, hempty]

/-- Witness for C10 at concrete inputs. -/
theorem C10_witness :
    watchIter 60 [projAlpha] 0 ⟨100, [], Except.ok (), Except.ok []⟩ =
      RunResult.panicked :=
  C10_empty_paths_panics 60 0 [projAlpha] ⟨100, [], Except.ok (), Except.ok []⟩
    (by decide) rfl

end Clockhand
